import Mathlib

/-!
# A verification development for the rust-gl shader subsystem

This file gives a shallow embedding, in Lean 4, of the parts of the
rust-gl rendering engine that the verified properties talk about:

* the per-shader uniform value cache and the `set` / `direct_set` API
  (`src/shader.rs`, the `set_matrix_value!` macro instances),
* the hot-reload sweep `Shader::try_runtime_recompile` and the cache
  replay `Shader::load_cached_uniforms` (`src/shader.rs`),
* the material-driven fragment/vertex source assembly
  `NarrowingMaterial::into_shader` (`src/shader.rs`),
* vertex array configuration `VertexArrayObject::configure`
  (`src/glutil.rs`),
* instanced rendering `<InstancedObject as Render>::render`
  (`src/renderable.rs`),
* the model matrix `Transform::mat` (`src/transformation.rs`) together
  with the cgmath matrix constructors it calls.

Modelling conventions:

* Rust `f32` scalars are modelled as exact rationals (`ℚ`); equality of
  cached values is modelled as value equality (the source compares with
  `PartialEq`).  Trigonometric functions are not evaluated: a rotation
  angle is carried as its sine/cosine pair, which is all `mat` uses.
* The GPU is an oracle (`Gpu`, environment records): uniform-location
  lookup, the error state reported by `find_gl_error`, and the result of
  a compile+link are oracle functions, and every GPU call the code
  issues is recorded in an explicit call log.
* Rust `HashMap`s are modelled as insertion-ordered association lists;
  iteration order is the list order.  (The source's iteration order is
  unspecified; every property proved here is insensitive to it.)
* Rust panics (`unwrap`/`expect`/out-of-bounds indexing) are modelled by
  returning `none` from an `Option`-valued embedding; fallible code
  returns `Except String`.
-/

namespace RustGl

/-! ## List-of-characters string model

Shader source text is modelled as `List Char`, so that the substring
search (`str::contains`) and substitution (`str::replace`) used by the
shader template assembler are structurally recursive and kernel-evaluable.
-/

/-- Rust `str::contains` on the list-of-characters model: `pat` occurs
as a contiguous substring of `hay`. -/
def containsSub (hay pat : List Char) : Bool :=
  match hay with
  | [] => pat.isEmpty
  | _ :: t => pat.isPrefixOf hay || containsSub t pat

/-- Fuel-driven worker for `replaceSub`; the fuel bounds the number of
characters of `hay` that are consumed, so `hay.length` is enough. -/
def replaceSubAux (repl pat : List Char) : Nat → List Char → List Char
  | 0, hay => hay
  | _ + 1, [] => []
  | n + 1, h :: t =>
    if pat ≠ [] ∧ pat.isPrefixOf (h :: t) then
      repl ++ replaceSubAux repl pat n (List.drop pat.length (h :: t))
    else
      h :: replaceSubAux repl pat n t

/-- Rust `str::replace`: replace every (non-overlapping, leftmost)
occurrence of `pat` in `hay` by `repl`. -/
def replaceSub (hay pat repl : List Char) : List Char :=
  replaceSubAux repl pat hay.length hay

/-- Decimal digits of a natural number, as characters (worker). -/
def natToCharsAux : Nat → Nat → List Char
  | 0, _ => []
  | fuel + 1, n =>
    if n < 10 then [Char.ofNat (48 + n)]
    else natToCharsAux fuel (n / 10) ++ [Char.ofNat (48 + n % 10)]

/-- Decimal rendering of a natural number (Rust `format!("{i}")`). -/
def natToChars (n : Nat) : List Char := natToCharsAux (n + 1) n

/-- The GPU calls issued by the code paths modelled in this file.  Each
constructor records the arguments of the corresponding GL entry point
that matter to the embedding; `uniformUpload` stands for any of the
typed `glUniform*`/`glUniformMatrix*` upload calls. -/
inductive GlCall where
  | vertexArrayVertexBuffer (vao idx buf stride : ℕ)
  | enableVertexArrayAttrib (vao idx : ℕ)
  | vertexArrayAttribFormat (vao idx amount kind offset : ℕ)
  | vertexArrayAttribBinding (vao idx bufIdx : ℕ)
  | namedBufferData (buf : ℕ)
  | useProgram (p : ℕ)
  | bindTextures (count : ℕ)
  | uniformUpload (loc : ℤ)
  | bindVertexArray (id : ℕ)
  | drawElementsInstanced (mode count instances : ℕ)
  deriving DecidableEq, Repr

/-! ## The uniform value cache (`src/shader.rs`)

`CacheType` mirrors the `enum CacheType` of the source; the `f32`
carriers are modelled as `ℚ`.  The per-type `SetValue` implementations
generated by the `set_matrix_value!` macro are identical except for the
typed GL upload call, so they are embedded once, over the tagged union:
the macro's cache test `Some($cache_type(cached)) if *cached == value`
is exactly equality of `CacheType` values. -/

inductive CacheType where
  | Matrix4 (m : List ℚ)
  | Matrix3 (m : List ℚ)
  | Matrix2 (m : List ℚ)
  | Float (x : ℚ)
  | Int (x : ℤ)
  | UInt (x : ℕ)
  | VecInt (v : List ℤ)
  | VecUInt (v : List ℕ)
  | VecFloat (v : List ℚ)
  deriving DecidableEq, Repr

/-- `HashMap::get` on the insertion-ordered association-list model. -/
def cacheLookup (cache : List (String × CacheType)) (name : String) :
    Option CacheType :=
  match cache with
  | [] => none
  | (k, v) :: t => if k = name then some v else cacheLookup t name

/-- `HashMap::insert` (overwrite in place, append if absent). -/
def cacheInsert (cache : List (String × CacheType)) (name : String)
    (value : CacheType) : List (String × CacheType) :=
  match cache with
  | [] => [(name, value)]
  | (k, v) :: t =>
    if k = name then (k, value) :: t else (k, v) :: cacheInsert t name value

/-- The GPU oracle seen by the uniform-set path.

* `locOf p name` is `glGetUniformLocation` on program `p`: `none` models
  the `-1` "not an active uniform" answer.
* `uploadErr loc v` is the error text reported by `find_gl_error` right
  after uploading `v` to location `loc` (`none` = clean error state). -/
structure Gpu where
  locOf : ℕ → String → Option ℤ
  uploadErr : ℤ → CacheType → Option String

/-- Whether the typed GL upload closure of `set_matrix_value!` issues its
upload and returns `Ok`: the three `Vec` instances reject lengths outside
`1..=4` (returning `Err("Incorrectly sized vector ")` before any GL
call); every other instance uploads unconditionally. -/
def glCallOk : CacheType → Bool
  | .VecInt v => decide (1 ≤ v.length ∧ v.length ≤ 4)
  | .VecUInt v => decide (1 ≤ v.length ∧ v.length ≤ 4)
  | .VecFloat v => decide (1 ≤ v.length ∧ v.length ≤ 4)
  | _ => true

/-- The `Shader` struct of `src/shader.rs`.  `debug_sources` always has
exactly three entries (vertex, fragment, geometry) in the source, so it
is a triple here.  The `geo` subshader handle and texture handles are
plain naturals. -/
structure Shader where
  path : Option String
  geo : ℕ
  optionals : ℕ
  textures : List (String × ℕ)
  vector_values : List (String × List ℚ)
  values : List (String × ℚ)
  debug_sources : List Char × List Char × List Char
  program : Option ℕ
  cache : List (String × CacheType)

/-- `Shader::get_uniform_location`: `Err "No program"` when there is no
linked program, `Err "Uniform <name> not found"` when the location query
answers `-1`. -/
def get_uniform_location (gpu : Gpu) (s : Shader) (name : String) :
    Except String ℤ :=
  match s.program with
  | none => .error "No program"
  | some p =>
    match gpu.locOf p name with
    | none => .error ("Uniform " ++ name ++ " not found")
    | some loc => .ok loc

/-- `SetValue::direct_set` (the macro body): resolve the uniform
location, issue the typed upload call, then check the GPU error state.
Returns the result together with the list of uniform upload calls
issued (empty or a single `uniformUpload`).  The `is_used`/`use_`
activation step only touches GPU program-binding state and is not
observable by any property here, so it is not modelled. -/
def direct_set (gpu : Gpu) (s : Shader) (value : CacheType)
    (name : String) : Except String Unit × List GlCall :=
  match get_uniform_location gpu s name with
  | .error e => (.error e, [])
  | .ok loc =>
    if glCallOk value then
      match gpu.uploadErr loc value with
      | some e => (.error (e ++ " " ++ name), [.uniformUpload loc])
      | none => (.ok (), [.uniformUpload loc])
    else
      (.error "Incorrectly sized vector ", [])

/-- `SetValue::set` (the macro body): return `Ok` immediately on a cache
hit of the same kind and value; otherwise `direct_set` and, only on
success, insert the value into the cache.  Returns the result, the
updated shader, and the uniform upload calls issued. -/
def set (gpu : Gpu) (s : Shader) (value : CacheType) (name : String) :
    Except String Unit × Shader × List GlCall :=
  if cacheLookup s.cache name = some value then
    (.ok (), s, [])
  else
    match direct_set gpu s value name with
    | (.ok _, n) => (.ok (), { s with cache := cacheInsert s.cache name value }, n)
    | (.error e, n) => (.error e, s, n)

/-! ## Hot reload (`Shader::try_runtime_recompile`, `src/shader.rs`)

The filesystem and the compile+link pipeline are oracles.  `compileNew`
stands for `Shader::compile` on the just-read sources (the GPU-side
shader/program creation, info-log extraction and `bind_matrices` are
below this interface); it yields the new linked program id, or the
`GLFunctionError` text on any stage-compile or link failure. -/

structure RecompileEnv where
  readFile : String → List Char
  pathExists : String → Bool
  compileNew : List Char → List Char → List Char → Except String ℕ
  gpu : Gpu

/-- The `<path>.vert` text read by the sweep (`load_file(vert_string)`). -/
def readVert (env : RecompileEnv) (path : String) : List Char :=
  env.readFile (path ++ ".vert")

/-- The `<path>.frag` text read by the sweep (`load_file(frag_string)`). -/
def readFrag (env : RecompileEnv) (path : String) : List Char :=
  env.readFile (path ++ ".frag")

/-- The `<path>.geo` text read by the sweep: read only if the file
exists, otherwise the default empty source. -/
def readGeo (env : RecompileEnv) (path : String) : List Char :=
  if env.pathExists (path ++ ".geo") then env.readFile (path ++ ".geo") else []

/-- The processed-shader sentinel checked by the sweep: the literal
(sic, misspelled) substring `//proccessed` of `try_runtime_recompile`. -/
def sentinelChars : List Char := "//proccessed".toList

/-- Worker of `Shader::load_cached_uniforms`: `direct_set` each cache
entry, in order, onto shader `s` (whose `program` is already the fresh
one).  Each arm `.expect`s success, so a failing `direct_set` is a Rust
panic, modelled by `none`; otherwise the list of replayed entries is
returned. -/
def loadCachedUniformsGo (gpu : Gpu) (s : Shader) :
    List (String × CacheType) → Option (List (String × CacheType))
  | [] => some []
  | (k, v) :: t =>
    match (direct_set gpu s v k).1 with
    | .ok _ => (loadCachedUniformsGo gpu s t).map (fun l => (k, v) :: l)
    | .error _ => none

/-- `Shader::load_cached_uniforms`: iterate the whole cache (which is
never mutated — the loop only reads it and `direct_set` takes `&self`)
replaying every entry. -/
def load_cached_uniforms (gpu : Gpu) (s : Shader) :
    Option (List (String × CacheType)) :=
  loadCachedUniformsGo gpu s s.cache

/-- Outcome of one hot-reload sweep: the updated shader, the number of
`compile` invocations performed, and the cache entries replayed through
`direct_set`. -/
structure RecompileResult where
  shader : Shader
  compiles : ℕ
  replayed : List (String × CacheType)

/-- `Shader::try_runtime_recompile`: no-op without a base path; re-read
the three sources; if any differs from the recorded baseline and the
vertex source does not contain the `//proccessed` sentinel, recompile:
on success swap in the new program handle and replay the cache, on
failure keep the old program; in either case record the just-read
sources as the new baseline.  The function returns `()` in Rust — it
has no error channel; `none` models a panic inside the cache replay.
(The source's locals `vert_source`/`frag_source`/`geo_source` are the
`readVert`/`readFrag`/`readGeo` applications, written inline.) -/
def try_runtime_recompile (env : RecompileEnv) (s : Shader) :
    Option RecompileResult :=
  match s.path with
  | none => some ⟨s, 0, []⟩
  | some path =>
    if (readVert env path ≠ s.debug_sources.1 ∨
          readFrag env path ≠ s.debug_sources.2.1 ∨
          readGeo env path ≠ s.debug_sources.2.2) ∧
        ¬ containsSub (readVert env path) sentinelChars then
      match env.compileNew (readVert env path) (readFrag env path)
          (readGeo env path) with
      | .ok pid =>
        match load_cached_uniforms env.gpu { s with program := some pid } with
        | none => none
        | some replayed =>
          some ⟨{ s with program := some pid, debug_sources :=
            (readVert env path, readFrag env path, readGeo env path) },
            1, replayed⟩
      | .error _ =>
        some ⟨{ s with debug_sources :=
          (readVert env path, readFrag env path, readGeo env path) }, 1, []⟩
    else
      some ⟨s, 0, []⟩

/-! ## Vertex array configuration (`src/glutil.rs`) -/

/-- The `VAA` (vertex array attribute) struct of `src/glutil.rs`. -/
structure Vaa where
  kind : ℕ
  amount : ℕ
  type_size : ℕ
  mem_size : ℕ
  vbo_index : ℕ
  deriving DecidableEq, Repr

/-- The `BufferObject` struct of `src/glutil.rs`. -/
structure BufferObject where
  id : ℕ
  generated : Bool
  bound : Bool
  buffered : Bool
  kind : ℕ
  deriving DecidableEq, Repr

/-- The `VertexArrayObject` struct of `src/glutil.rs` (its `structure`
field is spelled `structure_` here, `structure` being a Lean keyword). -/
structure VertexArrayObject where
  id : ℕ
  generated : Bool
  bound : Bool
  structure_ : List Vaa
  ebo : BufferObject
  vbos : List BufferObject
  deriving DecidableEq, Repr

/-- Lookup in the `HashMap<u32, u32>` stride/offset maps. -/
def natMapLookup (m : List (ℕ × ℕ)) (k : ℕ) : Option ℕ :=
  match m with
  | [] => none
  | (k', v) :: t => if k' = k then some v else natMapLookup t k

/-- `HashMap<u32, u32>` insert (overwrite in place, append if absent). -/
def natMapInsert (m : List (ℕ × ℕ)) (k v : ℕ) : List (ℕ × ℕ) :=
  match m with
  | [] => [(k, v)]
  | (k', v') :: t =>
    if k' = k then (k', v) :: t else (k', v') :: natMapInsert t k v

/-- The stride map built by `configure`: for each attribute in loop
order, `stride.entry(i.vbo_index).or_insert(0)` then `+= i.mem_size`. -/
def strideFold (attrs : List Vaa) : List (ℕ × ℕ) :=
  attrs.foldl
    (fun m a =>
      let m := match natMapLookup m a.vbo_index with
        | none => natMapInsert m a.vbo_index 0
        | some _ => m
      natMapInsert m a.vbo_index
        ((natMapLookup m a.vbo_index).getD 0 + a.mem_size))
    []

/-- The per-buffer binding loop of `configure`: for every vertex buffer
index `i`, call `glVertexArrayVertexBuffer` with the stride looked up at
key `i` — a lookup that panics (`stride[&(i as u32)]`) when no attribute
references buffer `i`.  Returns the calls and the offset map seeded with
zero for every buffer index. -/
def bindVertexBuffersGo (vaoId : ℕ) (stride : List (ℕ × ℕ)) :
    List BufferObject → ℕ → Option (List GlCall × List (ℕ × ℕ))
  | [], _ => some ([], [])
  | b :: t, i =>
    match natMapLookup stride i with
    | none => none
    | some st =>
      (bindVertexBuffersGo vaoId stride t (i + 1)).map fun (calls, offs) =>
        (.vertexArrayVertexBuffer vaoId i b.id st :: calls, (i, 0) :: offs)

/-- See `bindVertexBuffersGo`; the loop starts at buffer index 0. -/
def bindVertexBuffers (vaoId : ℕ) (vbos : List BufferObject)
    (stride : List (ℕ × ℕ)) : Option (List GlCall × List (ℕ × ℕ)) :=
  bindVertexBuffersGo vaoId stride vbos 0

/-- The per-attribute loop of `configure`: enable, set format at the
running per-buffer offset, record the binding, then advance that
buffer's offset by the attribute's `mem_size`.  The offset lookup
`pointer_offset[&self.structure[i].vbo_index]` panics if the attribute
references a buffer index that was never seeded. -/
def configureAttribs (vaoId : ℕ) (attrs : List Vaa)
    (offsets : List (ℕ × ℕ)) (i : ℕ) : Option (List GlCall) :=
  match attrs with
  | [] => some []
  | a :: t =>
    match natMapLookup offsets a.vbo_index with
    | none => none
    | some off =>
      (configureAttribs vaoId t
          (natMapInsert offsets a.vbo_index (off + a.mem_size)) (i + 1)).map
        fun calls =>
          .enableVertexArrayAttrib vaoId i ::
          .vertexArrayAttribFormat vaoId i a.amount a.kind off ::
          .vertexArrayAttribBinding vaoId i a.vbo_index :: calls

/-- `VertexArrayObject::configure`: store the new attribute list in
`self.structure` first, then refuse (with
`"Some VBO has not yet been buffered!"`) if any vertex buffer has not
been uploaded; otherwise compute strides, bind every vertex buffer, and
configure every attribute.  `glError` is the `find_gl_error` state at
the end; `none` in the result models a Rust panic on the stride/offset
map lookups. -/
def configure (vao : VertexArrayObject) (structure_ : List Vaa)
    (glError : Option String) :
    Option (Except String Unit × VertexArrayObject × List GlCall) :=
  if vao.vbos.any (fun x => ¬ x.buffered) then
    some (.error "Some VBO has not yet been buffered!",
      { vao with structure_ := structure_ }, [])
  else
    match bindVertexBuffers vao.id vao.vbos (strideFold structure_) with
    | none => none
    | some (bindCalls, offsets) =>
      match configureAttribs vao.id structure_ offsets 0 with
      | none => none
      | some attribCalls =>
        some (match glError with
          | none => .ok ()
          | some e => .error e,
          { vao with structure_ := structure_ }, bindCalls ++ attribCalls)

/-! ## Transforms and model matrices (`src/transformation.rs`)

`Transform::mat` calls three cgmath `Matrix4<f32>` constructors and
multiplies the results.  cgmath stores matrices column-major (fields
`x`-`w` are the columns); the constructors and `Mul` are reproduced here
over `ℚ`.  An angle enters `mat` only through its sine and cosine, so a
`Transform`'s rotation is carried as its componentwise sine/cosine
pairs. -/

structure Vec4 where
  x : ℚ
  y : ℚ
  z : ℚ
  w : ℚ
  deriving DecidableEq, Repr

/-- Componentwise sum (cgmath `Vector4: Add`). -/
def Vec4.add (a b : Vec4) : Vec4 :=
  ⟨a.x + b.x, a.y + b.y, a.z + b.z, a.w + b.w⟩

/-- Scalar multiple (cgmath `Vector4: Mul<S>`). -/
def Vec4.smul (c : ℚ) (v : Vec4) : Vec4 :=
  ⟨c * v.x, c * v.y, c * v.z, c * v.w⟩

/-- cgmath `Matrix4`: four columns. -/
structure Mat4 where
  x : Vec4
  y : Vec4
  z : Vec4
  w : Vec4
  deriving DecidableEq, Repr

/-- Matrix-vector product: the linear combination of the columns. -/
def Mat4.mulVec (m : Mat4) (v : Vec4) : Vec4 :=
  (((Vec4.smul v.x m.x).add (Vec4.smul v.y m.y)).add
    (Vec4.smul v.z m.z)).add (Vec4.smul v.w m.w)

/-- Matrix product (cgmath `Matrix4: Mul`): transform each column. -/
def Mat4.mul (a b : Mat4) : Mat4 :=
  ⟨a.mulVec b.x, a.mulVec b.y, a.mulVec b.z, a.mulVec b.w⟩

/-- cgmath `Matrix4::from_translation(v)`. -/
def fromTranslation (v : ℚ × ℚ × ℚ) : Mat4 :=
  ⟨⟨1, 0, 0, 0⟩, ⟨0, 1, 0, 0⟩, ⟨0, 0, 1, 0⟩, ⟨v.1, v.2.1, v.2.2, 1⟩⟩

/-- cgmath `Matrix4::from_nonuniform_scale(x, y, z)`. -/
def fromNonuniformScale (x y z : ℚ) : Mat4 :=
  ⟨⟨x, 0, 0, 0⟩, ⟨0, y, 0, 0⟩, ⟨0, 0, z, 0⟩, ⟨0, 0, 0, 1⟩⟩

/-- cgmath `Matrix4::from(Euler::new(a, b, c))`, written over the
sine/cosine pairs of the three Euler angles `a` (about x), `b` (about
y), `c` (about z); cgmath cites geometrictools' EulerAngles, page A-2. -/
def eulerMat4 (sx cx sy cy sz cz : ℚ) : Mat4 :=
  ⟨⟨cy * cz, cx * sz + sx * sy * cz, sx * sz - cx * sy * cz, 0⟩,
   ⟨-(cy * sz), cx * cz - sx * sy * sz, sx * cz + cx * sy * sz, 0⟩,
   ⟨sy, -(sx * cy), cx * cy, 0⟩,
   ⟨0, 0, 0, 1⟩⟩

/-- The `Transform` struct of `src/transformation.rs`: position and
scale are the `Vector3<f32>` fields; the `rotation` vector of Euler
angles (radians) is represented by the sines (`rotationSin`) and
cosines (`rotationCos`) of its three components, which is all
`Transform::mat` consumes of it. -/
structure Transform where
  position : ℚ × ℚ × ℚ
  rotationSin : ℚ × ℚ × ℚ
  rotationCos : ℚ × ℚ × ℚ
  scale : ℚ × ℚ × ℚ
  deriving DecidableEq, Repr

/-- `Transform::mat`: `translation * rotation * scale`, where the
rotation is `Matrix4::from(Euler::new(Rad(rotation.x), Rad(rotation.z),
Rad(rotation.y)))` — note the source passes the **z** component as the
second Euler angle and the **y** component as the third. -/
def Transform.mat (t : Transform) : Mat4 :=
  let translation := fromTranslation t.position
  let scale := fromNonuniformScale t.scale.1 t.scale.2.1 t.scale.2.2
  let rotation := eulerMat4 t.rotationSin.1 t.rotationCos.1
    t.rotationSin.2.2 t.rotationCos.2.2
    t.rotationSin.2.1 t.rotationCos.2.1
  (translation.mul rotation).mul scale

/-- The model matrix as the claim words it: the translation matrix from
the position, times the rotation matrix built from the Euler angles
`(x, y, z)` **in that component order**, times the nonuniform scale
matrix. -/
def Transform.matClaimed (t : Transform) : Mat4 :=
  ((fromTranslation t.position).mul
      (eulerMat4 t.rotationSin.1 t.rotationCos.1
        t.rotationSin.2.1 t.rotationCos.2.1
        t.rotationSin.2.2 t.rotationCos.2.2)).mul
    (fromNonuniformScale t.scale.1 t.scale.2.1 t.scale.2.2)

/-- The model matrix with the the y and z Euler components exchanged,
as the source actually passes them to `Euler::new`. -/
def Transform.matSwapped (t : Transform) : Mat4 :=
  ((fromTranslation t.position).mul
      (eulerMat4 t.rotationSin.1 t.rotationCos.1
        t.rotationSin.2.2 t.rotationCos.2.2
        t.rotationSin.2.1 t.rotationCos.2.1)).mul
    (fromNonuniformScale t.scale.1 t.scale.2.1 t.scale.2.2)

/-! ## Instanced rendering (`src/renderable.rs`) -/

/-- The `MeshData` struct of `src/renderable.rs` (vertex payloads as
rationals; texture coordinates and normals optional). -/
structure MeshData where
  vertices : List (ℚ × ℚ × ℚ)
  indices : List ℕ
  vertex_array : VertexArrayObject
  tex_coords : Option (List (ℚ × ℚ))
  normals : Option (List (ℚ × ℚ × ℚ))

/-- The `InstancedObject` struct of `src/renderable.rs`.  The
`ShaderPtr` (`Arc<RefCell<Shader>>`) is modelled as the owned shader —
the code is single-threaded and `render` is the only borrower here. -/
structure InstancedObject where
  mesh : MeshData
  transforms : List Transform
  colors : List (ℚ × ℚ × ℚ × ℚ)
  shader : Shader
  is : Bool
  draw_type : ℕ

/-- Environment for `render`: the GPU oracle, the `glfwGetTime` clock,
and the `find_gl_error` state observed right after a `NamedBufferData`
upload to a given buffer id (`none` = clean). -/
structure RenderEnv where
  gpu : Gpu
  time : ℚ
  bufErr : ℕ → Option String

/-- `BufferObject::buffer_data`: mark the buffer uploaded (before the
GL call, as the source does), issue `NamedBufferData`, and report
`find_gl_error`. -/
def buffer_data (env : RenderEnv) (b : BufferObject) :
    BufferObject × List GlCall × Except String Unit :=
  ({ b with buffered := true }, [.namedBufferData b.id],
    match env.bufErr b.id with
    | none => .ok ()
    | some e => .error e)

/-- `InstancedObject::buffer_data`: upload the per-instance transform
matrices into `vbos[1]` and the per-instance colors into `vbos[2]`
(each `map_err`'d to a fixed message); indexing a missing vertex buffer
is a Rust panic (`none`).  The matrix payload is `transforms.map
Transform.mat`; payload bytes are not tracked by the call log. -/
def instancedBufferData (env : RenderEnv) (o : InstancedObject) :
    Option (InstancedObject × List GlCall × Except String Unit) :=
  match o.mesh.vertex_array.vbos[1]? with
  | none => none
  | some b1 =>
    let (b1', c1, r1) := buffer_data env b1
    let o1 := { o with mesh := { o.mesh with vertex_array :=
      { o.mesh.vertex_array with vbos := o.mesh.vertex_array.vbos.set 1 b1' } } }
    match r1 with
    | .error _ => some (o1, c1, .error "Failed to buffer transform data")
    | .ok _ =>
      match o1.mesh.vertex_array.vbos[2]? with
      | none => none
      | some b2 =>
        let (b2', c2, r2) := buffer_data env b2
        let o2 := { o1 with mesh := { o1.mesh with vertex_array :=
          { o1.mesh.vertex_array with vbos := o1.mesh.vertex_array.vbos.set 2 b2' } } }
        match r2 with
        | .error _ => some (o2, c1 ++ c2, .error "Failed to buffer color data")
        | .ok _ => some (o2, c1 ++ c2, .ok ())

/-- `Shader::use_`: nothing without a linked program; otherwise bind the
texture units (`use_textures` is silent when no textures are
registered) and activate the program. -/
def shaderUseCalls (s : Shader) : List GlCall :=
  match s.program with
  | none => []
  | some p =>
    (if s.textures.isEmpty then [] else [.bindTextures s.textures.length]) ++
      [.useProgram p]

/-- `Shader::update` / `Shader::update_optionals`: when the optional
`time` uniform was detected (bit 0 of `optionals`), upload the current
clock through the caching `set` path. -/
def shaderUpdate (env : RenderEnv) (s : Shader) :
    Except String Unit × Shader × List GlCall :=
  if s.optionals &&& 1 = 1 then
    match set env.gpu s (.Float env.time) "time" with
    | (.ok _, s', calls) => (.ok (), s', calls)
    | (.error e, s', calls) => (.error e, s', calls)
  else (.ok (), s, [])

/-- `i32::try_from` on a `usize`, as used for the draw-call counts. -/
def tryFromI32 (n : ℕ) : Except String ℕ :=
  if n < 2 ^ 31 then .ok n else .error "out of range integral type conversion attempted"

/-- `<InstancedObject as Render>::render`: return `Ok` immediately when
there are no instances; otherwise upload the two per-instance buffers,
activate and update the shader (`update`'s failure is an `.expect`
panic, modelled by `none`), bind the vertex array, issue one instanced
draw (the two `i32::try_from` conversions are evaluated after `bind`
and propagate their error before the draw and the unbind), and unbind.
Returns the result, the updated object, and the GPU calls issued. -/
def instancedRender (env : RenderEnv) (o : InstancedObject) :
    Option (Except String Unit × InstancedObject × List GlCall) :=
  if o.transforms.isEmpty then some (.ok (), o, [])
  else
    match instancedBufferData env o with
    | none => none
    | some (o1, calls1, .error e) => some (.error e, o1, calls1)
    | some (o1, calls1, .ok _) =>
      let useCalls := shaderUseCalls o1.shader
      match shaderUpdate env o1.shader with
      | (.error _, _, _) => none
      | (.ok _, sh', updCalls) =>
        let o2 := { o1 with shader := sh' }
        let vaBound := { o2.mesh.vertex_array with bound := true }
        let o3 := { o2 with mesh := { o2.mesh with vertex_array := vaBound } }
        let bindCall := GlCall.bindVertexArray vaBound.id
        match tryFromI32 o3.mesh.vertices.length,
            tryFromI32 o3.transforms.length with
        | .ok count, .ok instances =>
          let o4 := { o3 with mesh := { o3.mesh with vertex_array :=
            { vaBound with bound := false } } }
          some (.ok (), o4,
            calls1 ++ useCalls ++ updCalls ++
              [bindCall,
                .drawElementsInstanced o3.draw_type count instances,
                .bindVertexArray 0])
        | .error e, _ => some (.error e, o3, calls1 ++ useCalls ++ updCalls ++ [bindCall])
        | _, .error e => some (.error e, o3, calls1 ++ useCalls ++ updCalls ++ [bindCall])

/-! ## Material-driven shader source assembly
(`NarrowingMaterial::into_shader`, `src/shader.rs`)

The embedding reproduces the map population and the textual template
substitution of `into_shader`, up to the point where the assembled
vertex/fragment sources are handed to `compile` (the subsequent
compile, default-uniform push and `check_optionals` go through the
oracle interfaces already modelled above and play no part in the
properties about the assembled text).  Image payloads are abstracted to
the texture handle (`ℕ`) that `Shader::create_image_texture` returns
for them. -/

/-- Generic insertion-ordered association-list lookup (`HashMap::get`). -/
def alLookup {α : Type} : List (String × α) → String → Option α
  | [], _ => none
  | (k, v) :: t, name => if k = name then some v else alLookup t name

/-- Generic association-list insert (`HashMap::insert`). -/
def alInsert {α : Type} : List (String × α) → String → α → List (String × α)
  | [], name, value => [(name, value)]
  | (k, v) :: t, name, value =>
    if k = name then (k, value) :: t else (k, v) :: alInsert t name value

/-- `HashMap::keys` in iteration (here: insertion) order. -/
def alKeys {α : Type} (m : List (String × α)) : List String := m.map (·.1)

/-- The `MaybeColorTexture` enum of `src/shader.rs`. -/
inductive MaybeColorTexture where
  | Texture (img : ℕ)
  | RGBA (v : ℚ × ℚ × ℚ × ℚ)
  | RGB (v : ℚ × ℚ × ℚ)
  deriving DecidableEq, Repr

/-- The `MaybeTexture` enum of `src/shader.rs`. -/
inductive MaybeTexture where
  | Texture (img : ℕ)
  | Value (v : ℚ)
  deriving DecidableEq, Repr

/-- The `NarrowingMaterial` struct of `src/shader.rs`. -/
structure NarrowingMaterial where
  diffuse : Option MaybeColorTexture
  emissive : Option MaybeColorTexture
  specular : Option MaybeTexture
  metallic : Option MaybeTexture
  roughness : Option MaybeTexture
  ambient_scaling : Option MaybeTexture
  normal : Option MaybeTexture
  deriving DecidableEq, Repr

/-- One turn of `into_shader`'s `for i in ["diffuse", "emissive"]` loop:
a texture-backed property contributes a sampling statement to the
`LOGIC` section, a constant-backed one a `uniform vec4` declaration to
the `UNIFORMS` section. -/
def texOrUniformLine (textures : List (String × ℕ)) (i : String) :
    List Char × List Char :=
  if (alLookup textures i).isSome then
    ("vec4 ".toList ++ i.toList ++ " = texture(".toList ++ i.toList ++
       ", fs_in.TexCoord);\n".toList, [])
  else
    ([], "uniform vec4 ".toList ++ i.toList ++ ";\n".toList)

/-- `into_shader`'s loop over `ret.values.keys()`: one
`uniform float <name>;` declaration per scalar value. -/
def uniformFloatLines : List String → List Char
  | [] => []
  | k :: t =>
    "uniform float ".toList ++ k.toList ++ ";\n".toList ++ uniformFloatLines t

/-- `into_shader`'s loop over texture indices: one
`layout (binding=<i>) uniform sampler2D <name>;` declaration per bound
texture, indices in map-iteration order. -/
def samplerLines : List String → ℕ → List Char
  | [], _ => []
  | k :: t, i =>
    "layout (binding=".toList ++ natToChars i ++
      ") uniform sampler2D ".toList ++ k.toList ++ ";\n".toList ++
      samplerLines t (i + 1)

/-- The `STD140` substitution text (identical in every program). -/
def std140Chars : List Char :=
  "layout (std140) uniform Matrices \x7bvec3 cameraPos;\nmat4 view;\nmat4 projection;\n\x7d;\nlayout (std140, binding=1) uniform World \x7bvec4 ambient;\x7d;".toList

/-- `NarrowingMaterial::into_shader`, up to the assembled sources: the
populated shader (its texture/vector/scalar maps filled per property),
and the substituted vertex and fragment source texts that the method
passes on to `compile`. -/
def intoShaderSources (m : NarrowingMaterial) (vert frag : List Char) :
    Shader × List Char × List Char :=
  let ret0 : Shader :=
    { path := none, geo := 0, optionals := 0, textures := [],
      vector_values := [], values := [], debug_sources := ([], [], []),
      program := none, cache := [] }
  let ret1 := match m.diffuse with
    | none =>
      { ret0 with vector_values :=
          alInsert ret0.vector_values "diffuse" [1/2, 1/2, 1/2] }
    | some (.Texture img) =>
      { ret0 with textures := alInsert ret0.textures "diffuse" img }
    | some (.RGBA v) =>
      { ret0 with vector_values :=
          alInsert ret0.vector_values "diffuse" [v.1, v.2.1, v.2.2.1, v.2.2.2] }
    | some (.RGB v) =>
      { ret0 with vector_values :=
          alInsert ret0.vector_values "diffuse" [v.1, v.2.1, v.2.2, 1] }
  let ret2 := match m.specular with
    | none => { ret1 with values := alInsert ret1.values "specular" 1 }
    | some (.Texture img) =>
      { ret1 with textures := alInsert ret1.textures "specular" img }
    | some (.Value v) => { ret1 with values := alInsert ret1.values "specular" v }
  let ret3 := match m.emissive with
    | none =>
      { ret2 with vector_values :=
          alInsert ret2.vector_values "emissive" [0, 0, 0, 0] }
    | some (.Texture img) =>
      { ret2 with textures := alInsert ret2.textures "emissive" img }
    | some (.RGBA v) =>
      { ret2 with vector_values :=
          alInsert ret2.vector_values "emissive" [v.1, v.2.1, v.2.2.1, v.2.2.2] }
    | some (.RGB v) =>
      { ret2 with vector_values :=
          alInsert ret2.vector_values "emissive" [v.1, v.2.1, v.2.2, 1] }
  let hasTex := ¬ ret3.textures.isEmpty
  let locations :=
    "layout (location = 0) in vec3 aPos;\nlayout (location = 1) in vec3 aNormal;\n".toList ++
      (if hasTex then "layout (location = 2) in vec2 aTexCoord;".toList else [])
  let passthroughs :=
    if hasTex then "vs_out.TexCoord = aTexCoord;".toList else []
  let outs := "vec3 Normal;\nvec3 FragPos;\nfloat Time;".toList ++
    (if hasTex then "vec2 TexCoord;".toList else [])
  let vert1 := replaceSub vert "//T: LOCATIONS".toList locations
  let vert2 := replaceSub vert1 "//T: PASSTHROUGHS".toList passthroughs
  let vert3 := replaceSub vert2 "//T: OUT".toList
    ("out VS_OUT \x7b\n".toList ++ outs ++ "\x7d vs_out;".toList)
  let vert4 := replaceSub vert3 "//T: UNIFORMS".toList "uniform mat4 model;".toList
  let vert5 := replaceSub vert4 "//T: STD140".toList std140Chars
  let frag1 := replaceSub frag "//T: IN".toList
    ("in VS_OUT \x7b\n".toList ++ outs ++ "\x7d fs_in;".toList)
  let frag2 := replaceSub frag1 "//T: OUT".toList "out vec4 FragColor;".toList
  let frag3 := replaceSub frag2 "//T: STD140".toList std140Chars
  let diffuseLines := texOrUniformLine ret3.textures "diffuse"
  let emissiveLines := texOrUniformLine ret3.textures "emissive"
  let logic := diffuseLines.1 ++ emissiveLines.1
  let uniformsBase := diffuseLines.2 ++ emissiveLines.2
  let ret4 := { ret3 with values := alInsert ret3.values "specular_exponent" 256 }
  let uniforms := uniformsBase ++ uniformFloatLines (alKeys ret4.values)
  let texturesStr := samplerLines (alKeys ret4.textures) 0
  let frag4 := replaceSub frag3 "//T: TEXTURES".toList texturesStr
  let frag5 := replaceSub frag4 "//T: LOGIC".toList logic
  let frag6 := replaceSub frag5 "//T: UNIFORMS".toList uniforms
  (ret4, vert5, frag6)

/-- Modelled from the spec: the repository ships its shader template
files (`<basePath>.vert`/`.frag`) outside `src/`, so a representative
vertex template is modelled from the spec's template marker protocol —
a minimal GLSL skeleton carrying each vertex-stage marker verbatim. -/
def vertTemplate : List Char :=
  "#version 420 core\n//T: LOCATIONS\n//T: OUT\n//T: UNIFORMS\n//T: STD140\nvoid main() \x7b\n//T: PASSTHROUGHS\n\x7d\n".toList

/-- Modelled from the spec: a representative fragment template carrying
each fragment-stage substitution marker verbatim (the repository's
template files live outside `src/`). -/
def fragTemplate : List Char :=
  "#version 420 core\n//T: IN\n//T: OUT\n//T: STD140\n//T: TEXTURES\n//T: UNIFORMS\n//T: LOGIC\nvoid main() \x7b\n\x7d\n".toList

/-! ## Concrete instances used by the witnesses -/

/-- A benign GPU oracle: every uniform resolves to location 0 and the
error state stays clean. -/
def gpuW : Gpu := { locOf := fun _ _ => some 0, uploadErr := fun _ _ => none }

/-- A shader with no linked program and an empty cache. -/
def shaderNoProg : Shader :=
  { path := none, geo := 0, optionals := 0, textures := [],
    vector_values := [], values := [],
    debug_sources := ([], [], []), program := none, cache := [] }

/-- A shader with a base path, a linked program and one cached uniform. -/
def shaderW : Shader :=
  { path := some "sh", geo := 0, optionals := 0, textures := [],
    vector_values := [], values := [],
    debug_sources := ("v1".toList, "f1".toList, []), program := some 3,
    cache := [("tint", .Float 1)] }

/-- A filesystem/compile environment whose on-disk vertex source changed
and whose recompile fails. -/
def envFail : RecompileEnv :=
  { readFile := fun path =>
      if path = "sh.vert" then "v2".toList
      else if path = "sh.frag" then "f1".toList else [],
    pathExists := fun _ => false,
    compileNew := fun _ _ _ => .error "Shader Compile Error: bad",
    gpu := gpuW }

/-- The same changed filesystem, but with a succeeding recompile that
links program 9. -/
def envOk : RecompileEnv := { envFail with compileNew := fun _ _ _ => .ok 9 }

/-- A vertex buffer that has never been uploaded (`buffered == false`). -/
def bufferW : BufferObject :=
  { id := 1, generated := true, bound := false, buffered := false, kind := 0 }

/-- An index buffer that has been uploaded. -/
def eboW : BufferObject :=
  { id := 2, generated := true, bound := false, buffered := true, kind := 0 }

/-- A vertex array whose single vertex buffer is `bufferW`. -/
def vaoW : VertexArrayObject :=
  { id := 5, generated := true, bound := false, structure_ := [],
    ebo := eboW, vbos := [bufferW] }

/-- A position attribute: 3 floats out of buffer 0. -/
def vaaW : Vaa :=
  { kind := 0, amount := 3, type_size := 4, mem_size := 12, vbo_index := 0 }

/-- A mesh with no payload, carried by `vaoW`. -/
def meshW : MeshData :=
  { vertices := [], indices := [], vertex_array := vaoW,
    tex_coords := none, normals := none }

/-- An instanced object with an empty transform list. -/
def instObjW : InstancedObject :=
  { mesh := meshW, transforms := [], colors := [], shader := shaderW,
    is := true, draw_type := 6 }

/-- A render environment over the benign GPU oracle. -/
def renderEnvW : RenderEnv := { gpu := gpuW, time := 0, bufErr := fun _ => none }

/-- The transform with rotation `(0, π/2, 0)` (carried as sines
`(0, 1, 0)` and cosines `(1, 0, 1)`), zero position, unit scale. -/
def transformCex : Transform :=
  { position := (0, 0, 0), rotationSin := (0, 1, 0),
    rotationCos := (1, 0, 1), scale := (1, 1, 1) }

/-- The material of C6's concrete check: texture-backed diffuse,
constant-backed specular, nothing else set. -/
def materialCex : NarrowingMaterial :=
  { diffuse := some (.Texture 0), emissive := none,
    specular := some (.Value 1), metallic := none, roughness := none,
    ambient_scaling := none, normal := none }

end RustGl

namespace RustGl

/-! ## Association-list and replay lemmas -/

theorem cacheLookup_cacheInsert_self (c : List (String × CacheType))
    (n : String) (v : CacheType) :
    cacheLookup (cacheInsert c n v) n = some v := by
  induction c with
  | nil => simp [cacheInsert, cacheLookup]
  | cons kv t ih =>
    obtain ⟨k, w⟩ := kv
    by_cases h : k = n
    · simp [cacheInsert, cacheLookup, h]
    · simp [cacheInsert, cacheLookup, h, ih]

theorem cacheLookup_cacheInsert_ne (c : List (String × CacheType))
    (n m : String) (v : CacheType) (h : m ≠ n) :
    cacheLookup (cacheInsert c n v) m = cacheLookup c m := by
  induction c with
  | nil =>
    simp only [cacheInsert, cacheLookup]
    rw [if_neg (by intro hh; exact h hh.symm)]
  | cons kv t ih =>
    obtain ⟨k, w⟩ := kv
    by_cases hk : k = n
    · subst hk
      simp only [cacheInsert, cacheLookup, if_pos rfl]
      rw [if_neg (by intro hh; exact h hh.symm),
        if_neg (by intro hh; exact h hh.symm)]
    · simp [cacheInsert, cacheLookup, hk, ih]

theorem direct_set_ok_calls (gpu : Gpu) (s : Shader) (v : CacheType)
    (n : String) (h : (direct_set gpu s v n).1 = .ok ()) :
    ∃ loc, direct_set gpu s v n = (.ok (), [.uniformUpload loc]) := by
  unfold direct_set at h ⊢
  rcases hl : get_uniform_location gpu s n with e | loc
  · rw [hl] at h
    simp at h
  · refine ⟨loc, ?_⟩
    by_cases hc : glCallOk v = true
    · rcases hu : gpu.uploadErr loc v with _ | e
      · simp [hl, hc, hu]
      · rw [hl] at h
        simp [hc, hu] at h
    · rw [hl] at h
      simp [hc] at h

theorem set_cases (gpu : Gpu) (s : Shader) (value : CacheType)
    (name : String) :
    (cacheLookup s.cache name = some value ∧
      set gpu s value name = (.ok (), s, [])) ∨
    (cacheLookup s.cache name ≠ some value ∧
      ∃ loc, direct_set gpu s value name = (.ok (), [.uniformUpload loc]) ∧
        set gpu s value name =
          (.ok (), { s with cache := cacheInsert s.cache name value },
            [.uniformUpload loc])) ∨
    (cacheLookup s.cache name ≠ some value ∧
      ∃ e calls, direct_set gpu s value name = (.error e, calls) ∧
        set gpu s value name = (.error e, s, calls)) := by
  by_cases h : cacheLookup s.cache name = some value
  · exact Or.inl ⟨h, by unfold set; rw [if_pos h]⟩
  · rcases hds : direct_set gpu s value name with ⟨r, cl⟩
    cases r with
    | ok u =>
      obtain ⟨loc, hloc⟩ := direct_set_ok_calls gpu s value name (by rw [hds])
      refine Or.inr (Or.inl ⟨h, loc, hds.symm.trans hloc, ?_⟩)
      unfold set
      rw [if_neg h, hloc]
    | error e =>
      refine Or.inr (Or.inr ⟨h, e, cl, rfl, ?_⟩)
      unfold set
      rw [if_neg h, hds]

/-- Claim C4: a `set` whose value is already cached under the same name
with the same kind returns `Ok` without any GPU upload; a successful
`set` of an uncached value issues exactly one upload; and immediately
repeating a successful `set` with the identical value succeeds with
zero uploads — so two identical calls in a row perform exactly one
upload in total. -/
theorem set_cache_idempotent (gpu : Gpu) (s : Shader) (value : CacheType)
    (name : String) :
    (cacheLookup s.cache name = some value →
      set gpu s value name = (.ok (), s, [])) ∧
    (cacheLookup s.cache name ≠ some value →
      (set gpu s value name).1 = .ok () →
      (set gpu s value name).2.2.length = 1) ∧
    ((set gpu s value name).1 = .ok () →
      set gpu ((set gpu s value name).2.1) value name =
        (.ok (), (set gpu s value name).2.1, [])) := by
  rcases set_cases gpu s value name with ⟨h, hset⟩ |
    ⟨h, loc, hds, hset⟩ | ⟨h, e, calls, hds, hset⟩
  · refine ⟨fun _ => hset, fun hmiss _ => absurd h hmiss, fun _ => ?_⟩
    rw [hset]
    simpa using hset
  · refine ⟨fun hhit => absurd hhit h, fun _ _ => by rw [hset]; rfl, fun _ => ?_⟩
    rw [hset]
    show set gpu { s with cache := cacheInsert s.cache name value } value name = _
    unfold set
    rw [if_pos (cacheLookup_cacheInsert_self s.cache name value)]
  · refine ⟨fun hhit => absurd hhit h, fun _ hok => ?_, fun hok => ?_⟩ <;>
      rw [hset] at hok <;> simp at hok

/-- Witness for C4 at a concrete cache hit: `shaderW` already caches
`Float 1` under `"tint"`, so `set` succeeds with no upload. -/
theorem set_cache_idempotent_witness :
    set gpuW shaderW (.Float 1) "tint" = (.ok (), shaderW, []) :=
  (set_cache_idempotent gpuW shaderW (.Float 1) "tint").1 (by decide)

/-- Claim C5: every failing `set` — no linked program, uniform not
found among the program's active uniforms, or a dirty GPU error state
after the upload — returns `Err` (the embedding is a total function:
no panic) and leaves the shader, hence its uniform cache, unchanged;
a successful `set` inserts or overwrites exactly the entry under the
given name. -/
theorem set_failure_recoverable (gpu : Gpu) (s : Shader) (value : CacheType)
    (name : String) :
    (∀ e, (set gpu s value name).1 = .error e →
      (set gpu s value name).2.1 = s) ∧
    (cacheLookup s.cache name ≠ some value → s.program = none →
      (set gpu s value name).1 = .error "No program") ∧
    (∀ p, cacheLookup s.cache name ≠ some value → s.program = some p →
      gpu.locOf p name = none →
      (set gpu s value name).1 = .error ("Uniform " ++ name ++ " not found")) ∧
    (∀ p loc e, cacheLookup s.cache name ≠ some value → s.program = some p →
      gpu.locOf p name = some loc → glCallOk value = true →
      gpu.uploadErr loc value = some e →
      (set gpu s value name).1 = .error (e ++ " " ++ name)) ∧
    ((set gpu s value name).1 = .ok () →
      cacheLookup (set gpu s value name).2.1.cache name = some value ∧
      ∀ m, m ≠ name →
        cacheLookup (set gpu s value name).2.1.cache m = cacheLookup s.cache m) := by
  refine ⟨?_, ?_, ?_, ?_, ?_⟩
  · intro e he
    rcases set_cases gpu s value name with ⟨h, hset⟩ |
      ⟨h, loc, hds, hset⟩ | ⟨h, e', calls, hds, hset⟩ <;>
        rw [hset] at he ⊢
    simp at he
  · intro hmiss hprog
    simp [set, direct_set, get_uniform_location, hmiss, hprog]
  · intro p hmiss hprog hloc
    simp [set, direct_set, get_uniform_location, hmiss, hprog, hloc]
  · intro p loc e hmiss hprog hloc hcall hup
    simp [set, direct_set, get_uniform_location, hmiss, hprog, hloc, hcall, hup]
  · intro hok
    rcases set_cases gpu s value name with ⟨h, hset⟩ |
      ⟨h, loc, hds, hset⟩ | ⟨h, e, calls, hds, hset⟩
    · rw [hset]
      exact ⟨h, fun m _ => rfl⟩
    · rw [hset]
      exact ⟨cacheLookup_cacheInsert_self s.cache name value,
        fun m hm => cacheLookup_cacheInsert_ne s.cache name m value hm⟩
    · rw [hset] at hok
      simp at hok

/-- Witness for C5 at a concrete failure: with no linked program, `set`
reports `"No program"` and leaves the shader untouched. -/
theorem set_failure_recoverable_witness :
    (set gpuW shaderNoProg (.Float 2) "tint").1 = .error "No program" ∧
    (set gpuW shaderNoProg (.Float 2) "tint").2.1 = shaderNoProg :=
  ⟨(set_failure_recoverable gpuW shaderNoProg (.Float 2) "tint").2.1
      (by decide) rfl,
    (set_failure_recoverable gpuW shaderNoProg (.Float 2) "tint").1
      "No program"
      ((set_failure_recoverable gpuW shaderNoProg (.Float 2) "tint").2.1
        (by decide) rfl)⟩

/-! ## Hot-reload theorems -/

theorem loadCachedUniformsGo_all_ok (gpu : Gpu) (s : Shader)
    (l : List (String × CacheType))
    (h : ∀ kv ∈ l, (direct_set gpu s kv.2 kv.1).1 = .ok ()) :
    loadCachedUniformsGo gpu s l = some l := by
  induction l with
  | nil => rfl
  | cons kv t ih =>
    obtain ⟨k, v⟩ := kv
    have hk := h (k, v) (List.mem_cons_self _ _)
    obtain ⟨loc, hloc⟩ := direct_set_ok_calls gpu s v k hk
    unfold loadCachedUniformsGo
    rw [hloc]
    simp [ih fun kv hkv => h kv (List.mem_cons_of_mem _ hkv)]

/-- Claim C1: when the sweep reads changed source text (no sentinel) and
the recompile of that text fails, `try_runtime_recompile` returns
normally — the embedding yields `some` result, and the function has no
error channel to propagate into — with the linked program handle (and
the uniform cache) unchanged; only the recorded baseline moves. -/
theorem hot_reload_failure_keeps_program (env : RecompileEnv) (s : Shader)
    (p e : String)
    (hp : s.path = some p)
    (hch : readVert env p ≠ s.debug_sources.1 ∨
      readFrag env p ≠ s.debug_sources.2.1 ∨
      readGeo env p ≠ s.debug_sources.2.2)
    (hsent : containsSub (readVert env p) sentinelChars = false)
    (hfail : env.compileNew (readVert env p) (readFrag env p) (readGeo env p) =
      .error e) :
    try_runtime_recompile env s =
      some ⟨{ s with debug_sources :=
        (readVert env p, readFrag env p, readGeo env p) }, 1, []⟩ ∧
    ∀ r, try_runtime_recompile env s = some r →
      r.shader.program = s.program ∧ r.shader.cache = s.cache := by
  have hmain : try_runtime_recompile env s =
      some ⟨{ s with debug_sources :=
        (readVert env p, readFrag env p, readGeo env p) }, 1, []⟩ := by
    unfold try_runtime_recompile
    simp only [hp]
    rw [if_pos ⟨hch, by simp [hsent]⟩, hfail]
  refine ⟨hmain, fun r hr => ?_⟩
  rw [hmain] at hr
  obtain rfl : r = _ := (Option.some_injective _ hr).symm
  exact ⟨rfl, rfl⟩

/-- Witness for C1: on `envFail` the vertex source changed on disk and
the recompile fails; the shader keeps program 3. -/
theorem hot_reload_failure_keeps_program_witness :
    try_runtime_recompile envFail shaderW =
      some ⟨{ shaderW with debug_sources :=
        (readVert envFail "sh", readFrag envFail "sh", readGeo envFail "sh") },
        1, []⟩ ∧
    ∀ r, try_runtime_recompile envFail shaderW = some r →
      r.shader.program = shaderW.program ∧ r.shader.cache = shaderW.cache :=
  hot_reload_failure_keeps_program envFail shaderW "sh"
    "Shader Compile Error: bad" rfl (Or.inl (by decide)) (by decide) rfl

/-- Claim C2: when the sweep reads changed source text (no sentinel),
the recompile succeeds linking `pid`, and every cached uniform replays
cleanly onto the new program, `try_runtime_recompile` swaps the linked
program handle to `pid`, replays exactly the cache entries through
`direct_set`, and leaves the cache contents unchanged. -/
theorem hot_reload_success_swaps_and_replays (env : RecompileEnv)
    (s : Shader) (p : String) (pid : ℕ)
    (hp : s.path = some p)
    (hch : readVert env p ≠ s.debug_sources.1 ∨
      readFrag env p ≠ s.debug_sources.2.1 ∨
      readGeo env p ≠ s.debug_sources.2.2)
    (hsent : containsSub (readVert env p) sentinelChars = false)
    (hok : env.compileNew (readVert env p) (readFrag env p) (readGeo env p) =
      .ok pid)
    (hre : ∀ kv ∈ s.cache,
      (direct_set env.gpu { s with program := some pid } kv.2 kv.1).1 =
        .ok ()) :
    try_runtime_recompile env s =
      some ⟨{ s with program := some pid, debug_sources :=
        (readVert env p, readFrag env p, readGeo env p) }, 1, s.cache⟩ ∧
    ({ s with program := some pid, debug_sources :=
        (readVert env p, readFrag env p, readGeo env p) } : Shader).cache =
      s.cache := by
  refine ⟨?_, rfl⟩
  unfold try_runtime_recompile
  simp only [hp]
  rw [if_pos ⟨hch, by simp [hsent]⟩]
  rw [← hp]
  simp only [hok]
  rw [show load_cached_uniforms env.gpu { s with program := some pid } =
    some s.cache from loadCachedUniformsGo_all_ok env.gpu _ s.cache hre]

/-- Witness for C2: on `envOk` the recompile links program 9 and the
single cached uniform replays onto it; the cache survives verbatim. -/
theorem hot_reload_success_swaps_and_replays_witness :
    try_runtime_recompile envOk shaderW =
      some ⟨{ shaderW with program := some 9, debug_sources :=
        (readVert envOk "sh", readFrag envOk "sh", readGeo envOk "sh") },
        1, shaderW.cache⟩ ∧
    ({ shaderW with program := some 9, debug_sources :=
        (readVert envOk "sh", readFrag envOk "sh", readGeo envOk "sh") } :
      Shader).cache = shaderW.cache :=
  hot_reload_success_swaps_and_replays envOk shaderW "sh" 9 rfl
    (Or.inl (by decide)) (by decide) rfl
    (by
      intro kv hkv
      simp only [shaderW, List.mem_singleton] at hkv
      subst hkv
      rfl)

/-- Claim C3: whenever a sweep that observed changed sources (without
the sentinel) completes, the recorded baseline equals the just-read
text, whether the recompile succeeded or failed; consequently an
immediately repeated sweep over the unchanged environment observes no
difference and performs zero recompilations. -/
theorem hot_reload_always_updates_baseline (env : RecompileEnv) (s : Shader)
    (p : String)
    (hp : s.path = some p)
    (hch : readVert env p ≠ s.debug_sources.1 ∨
      readFrag env p ≠ s.debug_sources.2.1 ∨
      readGeo env p ≠ s.debug_sources.2.2)
    (hsent : containsSub (readVert env p) sentinelChars = false) :
    ∀ r, try_runtime_recompile env s = some r →
      r.shader.debug_sources =
        (readVert env p, readFrag env p, readGeo env p) ∧
      r.compiles = 1 ∧
      try_runtime_recompile env r.shader = some ⟨r.shader, 0, []⟩ := by
  intro r hr
  unfold try_runtime_recompile at hr
  simp only [hp] at hr
  rw [if_pos ⟨hch, by simp [hsent]⟩] at hr
  rw [← hp] at hr
  have second : ∀ sh : Shader, sh.path = some p →
      sh.debug_sources = (readVert env p, readFrag env p, readGeo env p) →
      try_runtime_recompile env sh = some ⟨sh, 0, []⟩ := by
    intro sh hshp hshd
    unfold try_runtime_recompile
    simp only [hshp]
    rw [if_neg]
    intro hcon
    rcases hcon.1 with hne | hne | hne <;> rw [hshd] at hne <;> exact hne rfl
  rcases hcomp : env.compileNew (readVert env p) (readFrag env p)
      (readGeo env p) with e | pid
  · simp only [hcomp] at hr
    obtain rfl : r = _ := (Option.some_injective _ hr).symm
    exact ⟨rfl, rfl, second _ hp rfl⟩
  · simp only [hcomp] at hr
    rcases hlcu : load_cached_uniforms env.gpu { s with program := some pid }
      with _ | replayed
    · rw [hlcu] at hr
      cases hr
    · rw [hlcu] at hr
      obtain rfl : r = _ := (Option.some_injective _ hr).symm
      exact ⟨rfl, rfl, second _ hp rfl⟩

/-- Witness for C3, on the failing-compile environment: the baseline is
re-recorded and the immediately repeated sweep recompiles nothing. -/
theorem hot_reload_always_updates_baseline_witness :
    ({ shaderW with debug_sources :=
        (readVert envFail "sh", readFrag envFail "sh", readGeo envFail "sh") } :
        Shader).debug_sources =
      (readVert envFail "sh", readFrag envFail "sh", readGeo envFail "sh") ∧
    (1 : ℕ) = 1 ∧
    try_runtime_recompile envFail
        { shaderW with debug_sources :=
          (readVert envFail "sh", readFrag envFail "sh", readGeo envFail "sh") } =
      some ⟨{ shaderW with debug_sources :=
        (readVert envFail "sh", readFrag envFail "sh", readGeo envFail "sh") },
        0, []⟩ :=
  hot_reload_always_updates_baseline envFail shaderW "sh" rfl
    (Or.inl (by decide)) (by decide)
    ⟨{ shaderW with debug_sources :=
      (readVert envFail "sh", readFrag envFail "sh", readGeo envFail "sh") },
      1, []⟩ rfl

/-! ## Vertex-array and instanced-render theorems -/

/-- Claim C7: `configure` with any not-yet-uploaded vertex buffer
returns the buffered-state error, issuing none of the vertex-buffer
binding or attribute-configuration GPU calls (and, being a total
embedding of an early `return Err`, it does not crash). -/
theorem configure_unbuffered_vbo_errors (vao : VertexArrayObject)
    (attrs : List Vaa) (glError : Option String)
    (h : vao.vbos.any (fun x => ¬ x.buffered) = true) :
    configure vao attrs glError =
      some (.error "Some VBO has not yet been buffered!",
        { vao with structure_ := attrs }, []) := by
  unfold configure
  rw [if_pos h]

/-- Witness for C7: `vaoW`'s only vertex buffer was never uploaded. -/
theorem configure_unbuffered_vbo_errors_witness :
    configure vaoW [vaaW] none =
      some (.error "Some VBO has not yet been buffered!",
        { vaoW with structure_ := [vaaW] }, []) :=
  configure_unbuffered_vbo_errors vaoW [vaaW] none rfl

/-- Claim C10: when `configure` takes the buffered-state error exit, no
GPU call has been issued, but the VAO's stored attribute structure has
already been overwritten with the new list — so with a genuinely new
list the error return does not leave the recorded structure unchanged. -/
theorem configure_error_overwrites_structure (vao : VertexArrayObject)
    (attrs : List Vaa) (glError : Option String)
    (hbuf : vao.vbos.any (fun x => ¬ x.buffered) = true)
    (hne : attrs ≠ vao.structure_) :
    ∃ res : Except String Unit × VertexArrayObject × List GlCall,
      configure vao attrs glError = some res ∧
      res.1 = .error "Some VBO has not yet been buffered!" ∧
      res.2.2 = [] ∧
      res.2.1.structure_ = attrs ∧
      res.2.1.structure_ ≠ vao.structure_ := by
  refine ⟨(.error "Some VBO has not yet been buffered!",
    { vao with structure_ := attrs }, []), ?_, rfl, rfl, rfl, hne⟩
  unfold configure
  rw [if_pos hbuf]

/-- Witness for C10: configuring `vaoW` with a one-attribute list fails
on the unbuffered buffer yet records the new structure. -/
theorem configure_error_overwrites_structure_witness :
    ∃ res : Except String Unit × VertexArrayObject × List GlCall,
      configure vaoW [vaaW] none = some res ∧
      res.1 = .error "Some VBO has not yet been buffered!" ∧
      res.2.2 = [] ∧
      res.2.1.structure_ = [vaaW] ∧
      res.2.1.structure_ ≠ vaoW.structure_ :=
  configure_error_overwrites_structure vaoW [vaaW] none rfl (by decide)

/-- Claim C8: `InstancedObject::render` with an empty transform list
returns `Ok` immediately and issues no GPU call at all: no per-instance
buffer upload and no instanced draw. -/
theorem instanced_render_zero_instances_noop (env : RenderEnv)
    (o : InstancedObject) (h : o.transforms = []) :
    instancedRender env o = some (.ok (), o, []) := by
  have he : o.transforms.isEmpty = true := by rw [h]; rfl
  unfold instancedRender
  rw [if_pos he]

/-- Witness for C8: the zero-instance object renders to `Ok` with an
empty GPU call log. -/
theorem instanced_render_zero_instances_noop_witness :
    instancedRender renderEnvW instObjW = some (.ok (), instObjW, []) :=
  instanced_render_zero_instances_noop renderEnvW instObjW rfl

/-! ## Transform theorems -/

/-- Counterexample to C9 as stated: at rotation `(0, π/2, 0)` the
matrix `Transform::mat` computes differs from the translation times the
Euler matrix of the angles in component order `(x, y, z)` times the
scale — because the source passes the y and z rotation components to
`Euler::new` in swapped positions. -/
theorem transform_mat_euler_order_cex :
    Transform.mat transformCex ≠ Transform.matClaimed transformCex := by
  intro h
  have h2 := congrArg (fun m : Mat4 => m.x.y) h
  simp only [Transform.mat, Transform.matClaimed, transformCex,
    fromTranslation, fromNonuniformScale, eulerMat4, Mat4.mul, Mat4.mulVec,
    Vec4.add, Vec4.smul] at h2
  norm_num at h2

/-- Claim C9, amended: `Transform::mat` is the translation matrix from
`position`, times the cgmath Euler rotation matrix receiving the
rotation's x component as the first Euler angle, its **z** component as
the second and its **y** component as the third, times the nonuniform
scale matrix, in that order. -/
theorem transform_mat_swapped_euler (t : Transform) :
    Transform.mat t = Transform.matSwapped t := rfl

/-! ## Shader-assembly theorems -/

set_option maxRecDepth 100000 in
/-- Counterexample to C6 as stated: for the concrete material with a
texture-backed diffuse and a constant-backed specular, the assembled
fragment source does sample `texture(diffuse, ...)` but contains no
`uniform vec4 specular;` declaration — a constant specular is a scalar
in the `values` map and is declared through the `uniform float` path. -/
theorem into_shader_vec4_specular_cex :
    containsSub (intoShaderSources materialCex vertTemplate fragTemplate).2.2
        "texture(diffuse, ".toList = true ∧
    containsSub (intoShaderSources materialCex vertTemplate fragTemplate).2.2
        "uniform vec4 specular;".toList = false := by
  constructor <;> decide

set_option maxRecDepth 100000 in
/-- Claim C6, amended: for every material descriptor with texture-backed
diffuse and constant-backed specular, the assembled fragment source
contains the `texture(diffuse, ...)` sampling expression and a
`uniform float specular;` declaration (not `uniform vec4` — constant
specular values are scalars declared through the float-uniform path),
and never both the texture-sampling form and a uniform-constant form
for the same property. -/
theorem into_shader_texture_constant_branching (m : NarrowingMaterial)
    (img : ℕ) (q : ℚ)
    (hd : m.diffuse = some (.Texture img))
    (hs : m.specular = some (.Value q)) :
    containsSub (intoShaderSources m vertTemplate fragTemplate).2.2
        "texture(diffuse, ".toList = true ∧
    containsSub (intoShaderSources m vertTemplate fragTemplate).2.2
        "uniform float specular;".toList = true ∧
    containsSub (intoShaderSources m vertTemplate fragTemplate).2.2
        "uniform vec4 diffuse;".toList = false ∧
    containsSub (intoShaderSources m vertTemplate fragTemplate).2.2
        "uniform float diffuse;".toList = false ∧
    containsSub (intoShaderSources m vertTemplate fragTemplate).2.2
        "uniform vec4 specular;".toList = false ∧
    containsSub (intoShaderSources m vertTemplate fragTemplate).2.2
        "texture(specular".toList = false := by
  rcases he : m.emissive with _ | mc
  · simp only [intoShaderSources, hd, hs, he, alInsert, alKeys, alLookup,
      texOrUniformLine, List.map, Option.isSome, List.isEmpty,
      String.reduceEq, reduceIte, Bool.false_eq_true, not_false_eq_true,
      ite_false, ite_true, if_false, if_true]
    decide
  · cases mc with
    | Texture ei =>
      simp only [intoShaderSources, hd, hs, he, alInsert, alKeys, alLookup,
        texOrUniformLine, List.map, Option.isSome, List.isEmpty,
        String.reduceEq, reduceIte, Bool.false_eq_true, not_false_eq_true,
        ite_false, ite_true, if_false, if_true]
      decide
    | RGBA v =>
      simp only [intoShaderSources, hd, hs, he, alInsert, alKeys, alLookup,
        texOrUniformLine, List.map, Option.isSome, List.isEmpty,
        String.reduceEq, reduceIte, Bool.false_eq_true, not_false_eq_true,
        ite_false, ite_true, if_false, if_true]
      decide
    | RGB v =>
      simp only [intoShaderSources, hd, hs, he, alInsert, alKeys, alLookup,
        texOrUniformLine, List.map, Option.isSome, List.isEmpty,
        String.reduceEq, reduceIte, Bool.false_eq_true, not_false_eq_true,
        ite_false, ite_true, if_false, if_true]
      decide

set_option maxRecDepth 100000 in
/-- Witness for C6's amended claim at the concrete material. -/
theorem into_shader_texture_constant_branching_witness :
    containsSub (intoShaderSources materialCex vertTemplate fragTemplate).2.2
        "texture(diffuse, ".toList = true ∧
    containsSub (intoShaderSources materialCex vertTemplate fragTemplate).2.2
        "uniform float specular;".toList = true ∧
    containsSub (intoShaderSources materialCex vertTemplate fragTemplate).2.2
        "uniform vec4 diffuse;".toList = false ∧
    containsSub (intoShaderSources materialCex vertTemplate fragTemplate).2.2
        "uniform float diffuse;".toList = false ∧
    containsSub (intoShaderSources materialCex vertTemplate fragTemplate).2.2
        "uniform vec4 specular;".toList = false ∧
    containsSub (intoShaderSources materialCex vertTemplate fragTemplate).2.2
        "texture(specular".toList = false :=
  into_shader_texture_constant_branching materialCex 0 1 rfl rfl

end RustGl
